import Mathlib

/-!
Shallow embedding of `src/volcano.py` (USGS volcano ETL script).

The script is a linear pipeline: read configuration, HTTP-GET a GeoJSON
document, write it to a fixed local file, sign in to a GIS portal with a
keyring-resolved password, resolve a portal item, and (intendedly)
overwrite the hosted feature layer with the downloaded file.

External collaborators (the `requests` library, the OS keyring, the
`arcgis` SDK, the filesystem) are modelled as oracle fields of a `World`
record; the script's own control flow, logging, printing and file writes
are embedded faithfully as a pure function from `Config` and `World` to a
trace of observable events plus a process exit code.

Two facts of the source are embedded as-is:
  * `ingest` calls `sys.exit(1)` on any requests-level failure; `SystemExit`
    is not an `Exception`, so the top-level handler does not catch it and
    the process exits with status 1.
  * the `__main__` block calls `replace_feature_layer`, a name that is not
    defined anywhere in the module (the defined function is
    `replace_flayer`), so reaching that line raises `NameError`; the
    top-level `except Exception` block logs it, prints a short message and
    falls through, making the process exit with status 0.
-/

mutual

/-- JSON values, as produced by `response.json()` and consumed by
`json.dump`.  Arrays and objects are mutual inductives so that the
serializer below is structurally recursive (and hence computes by
`decide`/`rfl`).  Numbers are modelled as integers. -/
inductive JsonValue : Type where
  | null : JsonValue
  | bool (b : Bool) : JsonValue
  | num (n : Int) : JsonValue
  | str (s : String) : JsonValue
  | arr (xs : JsonArray) : JsonValue
  | obj (fs : JsonObject) : JsonValue

/-- A JSON array, as a bespoke list of `JsonValue`. -/
inductive JsonArray : Type where
  | nil : JsonArray
  | cons (hd : JsonValue) (tl : JsonArray) : JsonArray

/-- A JSON object, as a bespoke association list. -/
inductive JsonObject : Type where
  | nil : JsonObject
  | cons (k : String) (v : JsonValue) (tl : JsonObject) : JsonObject

end

mutual

/-- Model of Python `json.dumps` on the parsed value (the script does
`json.dump(data, file)` with default separators). String escaping is not
modelled. -/
def dumps : JsonValue → String
  | JsonValue.null => "null"
  | JsonValue.bool true => "true"
  | JsonValue.bool false => "false"
  | JsonValue.num n => toString n
  | JsonValue.str s => "\"" ++ s ++ "\""
  | JsonValue.arr xs => "[" ++ dumpsArray xs ++ "]"
  | JsonValue.obj fs => "\x7b" ++ dumpsObject fs ++ "\x7d"

/-- Serialize the elements of a JSON array, comma-separated. -/
def dumpsArray : JsonArray → String
  | JsonArray.nil => ""
  | JsonArray.cons x JsonArray.nil => dumps x
  | JsonArray.cons x (JsonArray.cons y tl) =>
      dumps x ++ ", " ++ dumpsArray (JsonArray.cons y tl)

/-- Serialize the fields of a JSON object, comma-separated. -/
def dumpsObject : JsonObject → String
  | JsonObject.nil => ""
  | JsonObject.cons k v JsonObject.nil => "\"" ++ k ++ "\": " ++ dumps v
  | JsonObject.cons k v (JsonObject.cons k2 v2 tl) =>
      "\"" ++ k ++ "\": " ++ dumps v ++ ", " ++
        dumpsObject (JsonObject.cons k2 v2 tl)

end

/-- An authenticated portal session, the opaque result of `GIS(url, user, pw)`. -/
structure GISSession : Type where
  sessionId : Nat
deriving DecidableEq

/-- A portal item, the opaque result of `gis.content.get(item_id)`. -/
structure PortalItem : Type where
  itemId : String
deriving DecidableEq

/-- Observable events of a run: stdout lines, log records, file writes, and
the outward network calls. -/
inductive Event : Type where
  | print (s : String) : Event
  | logInfo (s : String) : Event
  | logError (s : String) : Event
  | logException (s : String) : Event
  | fileWrite (path : String) (contents : String) : Event
  | httpGet (url : String) : Event
  | authAttempt (url : String) (username : String) (password : Option String) : Event
  | itemLookup (item_id : String) : Event
  | overwriteCall (path : String) : Event
deriving DecidableEq

/-- The configuration read from `config.ini`: section `USGS` key `url`, and
section `PORTAL` keys `url`, `username`, `item_id`.  All keys are assumed
present (missing-key behaviour is not modelled). -/
structure Config : Type where
  usgs_url : String
  portal_url : String
  portal_username : String
  portal_item_id : String

/-- The HTTP response object delivered by `requests.get`: its status code,
and the result of the library call `response.json()` — `some` parsed value,
or `none` when the body is not parseable as JSON. -/
structure HttpResponse : Type where
  status : Nat
  jsonBody : Option JsonValue

/-- The external world of one run: oracles for every collaborator the
script calls out to. -/
structure World : Type where
  /-- Outcome of `requests.get(url)`: `none` models a transport-level
  failure (the `RequestException` is raised by the call itself), `some r`
  a delivered response. -/
  response : Option HttpResponse
  /-- Result of `keyring.get_password("PORTAL", username)`: the stored
  secret, or `none` when the store has no entry. -/
  secret : Option String
  /-- Outcome of `GIS(portal_url, username, password)`: a session, or the
  message of the raised exception. -/
  auth : String → String → Option String → Except String GISSession
  /-- Outcome of `gis.content.get(item_id)`: `ok none` when the portal has
  no such item, `ok (some item)` on a hit, `error` when the lookup call
  itself raises. -/
  contentGet : String → Except String (Option PortalItem)
  /-- Outcome of `collection.manager.overwrite(path)` (reachable only via
  `replace_flayer`). -/
  overwrite : String → Except String Unit
  /-- Contents of the local geojson file before the run (`none` = absent). -/
  fileBefore : Option String

/-- The fixed local destination path
`WORKING_DIR / "01 Projects and Data" / "Data" / "Volcano.geojson"`,
relative to the working directory. -/
def geojson_path : String := "01 Projects and Data/Data/Volcano.geojson"

/-- The distinct exception kinds `ingest` can see from the `requests`
calls, all caught by its `except (ChunkedEncodingError, RequestException)`
handler: a transport-level error from `requests.get` itself, the
`HTTPError` raised by `response.raise_for_status()` (carrying the status),
or the `JSONDecodeError` raised by `response.json()`. -/
inductive RequestsError : Type where
  | transport : RequestsError
  | httpError (status : Nat) : RequestsError
  | jsonDecode : RequestsError
deriving DecidableEq

/-- Display text of the caught exception, as interpolated into the
`logging.error` f-string. -/
def requestsErrorText : RequestsError → String
  | RequestsError.transport => "connection error"
  | RequestsError.httpError status => toString status ++ " Error for url"
  | RequestsError.jsonDecode => "Expecting value"

/-- `response.raise_for_status()` raises `HTTPError` exactly for client
(4xx) and server (5xx) error status codes. -/
def raise_for_status_raises (status : Nat) : Bool :=
  400 ≤ status && status < 600

/-- Embedding of `ingest()` (volcano.py lines 88-108): GET the configured
USGS url; on any requests-level exception log and `sys.exit(1)` (modelled
as an `error` result, which `run` maps to exit status 1); otherwise dump
the parsed JSON to the fixed path and return that path. -/
def ingest (cfg : Config) (w : World) : List Event × Except RequestsError String :=
  let failWith (e : RequestsError) : List Event × Except RequestsError String :=
    ([Event.httpGet cfg.usgs_url,
      Event.logError ("Failed to download data: " ++ requestsErrorText e)],
     Except.error e)
  match w.response with
  | none => failWith RequestsError.transport
  | some resp =>
    if raise_for_status_raises resp.status then
      failWith (RequestsError.httpError resp.status)
    else
      match resp.jsonBody with
      | none => failWith RequestsError.jsonDecode
      | some data =>
        ([Event.httpGet cfg.usgs_url,
          Event.print "Writing geojson...",
          Event.fileWrite geojson_path (dumps data),
          Event.print "Done."],
         Except.ok geojson_path)

/-- Embedding of `sign_in_to_gis(portal_url, username, password)`
(volcano.py lines 48-62): print a banner, call `GIS(...)` (one
authentication handshake against the portal), print `Done.` and return the
session; an exception propagates to the caller. -/
def sign_in_to_gis (auth : String → String → Option String → Except String GISSession)
    (portal_url : String) (username : String) (password : Option String) :
    List Event × Except String GISSession :=
  let evs := [Event.print ("Signing into " ++ portal_url ++ "..."),
              Event.authAttempt portal_url username password]
  match auth portal_url username password with
  | Except.error e => (evs, Except.error e)
  | Except.ok gis => (evs ++ [Event.print "Done."], Except.ok gis)

/-- Embedding of `get_portal_item(gis, item_id)` (volcano.py lines 65-85):
call `gis.content.get`; raise when it returns `None`; log and re-raise any
exception.  The Python signature declares `Optional`, so the success value
is modelled as `Option PortalItem` even though the code only ever returns
a non-None item. -/
def get_portal_item (contentGet : String → Except String (Option PortalItem))
    (item_id : String) : List Event × Except String (Option PortalItem) :=
  let ev := [Event.itemLookup item_id]
  match contentGet item_id with
  | Except.error e =>
      (ev ++ [Event.logError ("Failed to retrieve portal item: " ++ e)],
       Except.error e)
  | Except.ok none =>
      let msg := "Portal item " ++ item_id ++ " not found"
      (ev ++ [Event.logError ("Failed to retrieve portal item: " ++ msg)],
       Except.error msg)
  | Except.ok (some item) => (ev, Except.ok (some item))

/-- Embedding of `replace_flayer(feature_layer_to_update, geojson_to_upload)`
(volcano.py lines 111-121).  Note: this function is defined in the source
but never reached, because the `__main__` block calls the undefined name
`replace_feature_layer` instead. -/
def replace_flayer (overwrite : String → Except String Unit)
    (geojson_to_upload : String) : List Event × Except String Unit :=
  let evs := [Event.print "Overwriting feature layer...",
              Event.overwriteCall geojson_to_upload]
  match overwrite geojson_to_upload with
  | Except.error e => (evs, Except.error e)
  | Except.ok _ => (evs ++ [Event.print "Done."], Except.ok ())

/-- The `str(e)` of the `NameError` raised at volcano.py line 136, where
the undefined name `replace_feature_layer` is called (the defined function
is `replace_flayer`). -/
def nameErrorMsg : String := "name replace_feature_layer is not defined"

/-- Events emitted by the top-level `except Exception` handler (volcano.py
lines 140-142): `logging.exception` appends the stack trace to the log,
then a short message pointing at the log is printed.  Control then falls
off the end of the script, so the process exits 0. -/
def exceptHandlerEvents (msg : String) : List Event :=
  [Event.logException "Unhandled exception occurred",
   Event.print (msg ++ " (see log for details)")]

/-- Result of one process run: the trace of observable events and the
process exit status. -/
structure RunResult : Type where
  events : List Event
  exitCode : Nat
deriving DecidableEq

/-- Embedding of the `__main__` block (volcano.py lines 124-142): ingest,
sign in with the keyring-resolved password, resolve the portal item, then
call the undefined `replace_feature_layer` (a `NameError`).  A `SystemExit`
from `ingest` bypasses the `except Exception` handler and exits 1; every
other exception is logged and printed by the handler and the process exits
0.  The `logging.info` of the total time at line 139 is unreachable. -/
def run (cfg : Config) (w : World) : RunResult :=
  match ingest cfg w with
  | (evs1, Except.error _) => { events := evs1, exitCode := 1 }
  | (evs1, Except.ok _geojson_file) =>
    let password := w.secret
    match sign_in_to_gis w.auth cfg.portal_url cfg.portal_username password with
    | (evs2, Except.error msg) =>
        { events := evs1 ++ evs2 ++ exceptHandlerEvents msg, exitCode := 0 }
    | (evs2, Except.ok _gis) =>
      match get_portal_item w.contentGet cfg.portal_item_id with
      | (evs3, Except.error msg) =>
          { events := evs1 ++ evs2 ++ evs3 ++ exceptHandlerEvents msg,
            exitCode := 0 }
      | (evs3, Except.ok _feature_layer) =>
          { events := evs1 ++ evs2 ++ evs3 ++ exceptHandlerEvents nameErrorMsg,
            exitCode := 0 }

/-- Contents of the local geojson file after a trace of events, starting
from the given prior contents (`none` = file absent). -/
def fileAfter (initial : Option String) : List Event → Option String
  | [] => initial
  | Event.fileWrite p c :: tl =>
      fileAfter (if p = geojson_path then some c else initial) tl
  | _ :: tl => fileAfter initial tl

/-- The error kind of an `ingest` result, `none` on success. -/
def ingestErrorKind : Except RequestsError String → Option RequestsError
  | Except.error e => some e
  | Except.ok _ => none

/-- Recognizer for the portal authentication handshake event. -/
def isAuthAttempt : Event → Bool
  | Event.authAttempt _ _ _ => true
  | _ => false

/-- Recognizer for the remote overwrite call event. -/
def isOverwriteCall : Event → Bool
  | Event.overwriteCall _ => true
  | _ => false

/-- Recognizer for `logging.info` records. -/
def isLogInfo : Event → Bool
  | Event.logInfo _ => true
  | _ => false

/-- The run trace truncated at the first authentication handshake: all log,
stdout and file output produced strictly before the password is used. -/
def preAuthEvents (r : RunResult) : List Event :=
  r.events.takeWhile (fun e => !isAuthAttempt e)

/-- The happy-path configuration of the end-to-end scenario in the spec. -/
def specConfig : Config :=
  ⟨"https://example/api.geojson", "https://org.example.com", "svc", "abc123"⟩

/-- The GeoJSON document of the end-to-end scenario:
an object with a type field and an empty features array. -/
def specBody : JsonValue :=
  JsonValue.obj (JsonObject.cons "type" (JsonValue.str "FeatureCollection")
    (JsonObject.cons "features" (JsonValue.arr JsonArray.nil) JsonObject.nil))

/-- Portal oracle that accepts any credentials. -/
def authOk : String → String → Option String → Except String GISSession :=
  fun _ _ _ => Except.ok ⟨1⟩

/-- Portal oracle that rejects the credentials with an exception. -/
def authRefused : String → String → Option String → Except String GISSession :=
  fun _ _ _ => Except.error "Invalid username or password"

/-- Content oracle on which every item identifier resolves. -/
def contentHit : String → Except String (Option PortalItem) :=
  fun item_id => Except.ok (some ⟨item_id⟩)

/-- Content oracle on which no item identifier resolves (`content.get`
returns `None`). -/
def contentMiss : String → Except String (Option PortalItem) :=
  fun _ => Except.ok none

/-- Overwrite oracle that always succeeds. -/
def overwriteOk : String → Except String Unit := fun _ => Except.ok ()

/-- The end-to-end happy world of the spec: HTTP 200 with valid JSON,
secret "pw1" in the store, portal authenticates, item resolves, overwrite
would succeed. -/
def specWorld : World :=
  ⟨some ⟨200, some specBody⟩, some "pw1", authOk, contentHit, overwriteOk, none⟩

/-- A run in which everything succeeds except that the portal has no item
for any identifier. -/
def itemMissingWorld : World :=
  ⟨some ⟨200, some specBody⟩, some "pw1", authOk, contentMiss, overwriteOk, none⟩

/-- A run in which the secret store has no entry for the portal account. -/
def noSecretWorld : World :=
  ⟨some ⟨200, some specBody⟩, none, authRefused, contentMiss, overwriteOk, none⟩

/-- A run in which the source answers HTTP 404 with a non-JSON body. -/
def badStatus404World : World :=
  ⟨some ⟨404, none⟩, some "pw1", authOk, contentHit, overwriteOk, some "old contents"⟩

/-- A run in which the source answers HTTP 200 with a body that is not
parseable as JSON. -/
def unparseableWorld : World :=
  ⟨some ⟨200, none⟩, some "pw1", authOk, contentHit, overwriteOk, some "old contents"⟩

/-- A run in which the source answers with the non-2xx, non-error status
300 and a valid JSON body. -/
def status300World : World :=
  ⟨some ⟨300, some specBody⟩, some "pw1", authRefused, contentMiss, overwriteOk, none⟩

/-- A two-byte JSON document (an empty object). -/
def smallBody : JsonValue := JsonValue.obj JsonObject.nil

/-- A nine-byte JSON document (a three-element array). -/
def bigBody : JsonValue :=
  JsonValue.arr (JsonArray.cons (JsonValue.num 1)
    (JsonArray.cons (JsonValue.num 2)
      (JsonArray.cons (JsonValue.num 3) JsonArray.nil)))

/-- A successful run fetching `smallBody`. -/
def smallBodyWorld : World :=
  ⟨some ⟨200, some smallBody⟩, some "pw1", authOk, contentHit, overwriteOk, none⟩

/-- A successful run fetching `bigBody`. -/
def bigBodyWorld : World :=
  ⟨some ⟨200, some bigBody⟩, some "pw1", authOk, contentHit, overwriteOk, none⟩

/-- The accumulator of `Nat.toDigitsCore` never shrinks. -/
theorem toDigitsCore_length_mono (b f : Nat) : ∀ (n : Nat) (l : List Char),
    l.length ≤ (Nat.toDigitsCore b f n l).length := by
  induction f with
  | zero => intro n l; simp [Nat.toDigitsCore]
  | succ f ih =>
    intro n l
    simp only [Nat.toDigitsCore]
    split
    · simp
    · exact le_trans (by simp) (ih (n / b) (Nat.digitChar (n % b) :: l))

/-- The decimal representation of a natural number is never empty. -/
theorem natRepr_length_pos (n : Nat) : 0 < (Nat.repr n).length := by
  show 0 < (Nat.toDigits 10 n).asString.length
  have hlen : (Nat.toDigits 10 n).asString.length = (Nat.toDigits 10 n).length := rfl
  rw [hlen]
  unfold Nat.toDigits
  simp only [Nat.toDigitsCore]
  split
  · simp
  · exact lt_of_lt_of_le (by simp)
      (toDigitsCore_length_mono 10 n (n / 10) [Nat.digitChar (n % 10)])

/-- The decimal representation of an integer is never empty. -/
theorem intToString_length_pos (n : Int) : 0 < (toString n).length := by
  cases n with
  | ofNat m => exact natRepr_length_pos m
  | negSucc m =>
    show 0 < ("-" ++ toString (m + 1)).length
    have h1 : ("-" : String).length = 1 := rfl
    rw [String.length_append, h1]
    omega

/-- The JSON serializer never produces the empty string. -/
theorem dumps_length_pos (j : JsonValue) : 0 < (dumps j).length := by
  cases j with
  | null => decide
  | bool b => cases b <;> decide
  | num n => simpa [dumps] using intToString_length_pos n
  | str s =>
    simp only [dumps, String.length_append]
    have h1 : ("\"" : String).length = 1 := rfl
    omega
  | arr xs =>
    simp only [dumps, String.length_append]
    have h1 : ("[" : String).length = 1 := rfl
    have h2 : ("]" : String).length = 1 := rfl
    omega
  | obj fs =>
    simp only [dumps, String.length_append]
    have h1 : ("\x7b" : String).length = 1 := rfl
    have h2 : ("\x7d" : String).length = 1 := rfl
    omega

/-- The JSON serializer never produces the empty string (string form). -/
theorem dumps_ne_empty (j : JsonValue) : dumps j ≠ "" := by
  intro h
  have hpos := dumps_length_pos j
  rw [h] at hpos
  exact absurd hpos (by decide)

/-- No run of the script ever reaches the overwrite call: the `__main__`
block invokes the undefined name `replace_feature_layer`, so control always
enters the exception handler before `replace_flayer` could run. -/
theorem run_no_overwrite_event (cfg : Config) (w : World) :
    (run cfg w).events.all (fun e => !isOverwriteCall e) = true := by
  cases hresp : w.response with
  | none => simp [run, ingest, hresp, isOverwriteCall]
  | some resp =>
    cases hst : raise_for_status_raises resp.status with
    | true => simp [run, ingest, hresp, hst, isOverwriteCall]
    | false =>
      cases hj : resp.jsonBody with
      | none => simp [run, ingest, hresp, hst, hj, isOverwriteCall]
      | some data =>
        cases ha : w.auth cfg.portal_url cfg.portal_username w.secret with
        | error msg =>
            simp [run, ingest, sign_in_to_gis, hresp, hst, hj, ha,
              isOverwriteCall, exceptHandlerEvents]
        | ok g =>
          cases hc : w.contentGet cfg.portal_item_id with
          | error msg =>
              simp [run, ingest, sign_in_to_gis, get_portal_item, hresp, hst,
                hj, ha, hc, isOverwriteCall, exceptHandlerEvents]
          | ok o =>
              cases o <;>
              simp [run, ingest, sign_in_to_gis, get_portal_item, hresp, hst,
                hj, ha, hc, isOverwriteCall, exceptHandlerEvents]

/-- C10: for every content oracle and every item identifier,
`get_portal_item` never returns `None` despite its declared `Optional`
return type: it either raises (its result is an error) or returns an
actual item. -/
theorem get_portal_item_never_returns_none
    (lookup : String → Except String (Option PortalItem)) (item_id : String) :
    (∃ e, (get_portal_item lookup item_id).2 = Except.error e) ∨
    (∃ item, (get_portal_item lookup item_id).2 = Except.ok (some item)) := by
  cases h : lookup item_id with
  | error e => exact Or.inl ⟨e, by simp [get_portal_item, h]⟩
  | ok o =>
    cases o with
    | none =>
        exact Or.inl ⟨"Portal item " ++ item_id ++ " not found",
          by simp [get_portal_item, h]⟩
    | some item => exact Or.inr ⟨item, by simp [get_portal_item, h]⟩

/-- C7: for every run whose source answers HTTP 200 with a valid JSON
document, `ingest` returns the fixed local path, the re-serialized document
is written to that path (overwriting whatever contents the file had
before), and the written text is non-empty. -/
theorem fetch_success_writes_exact_json (cfg : Config) (w : World) (j : JsonValue)
    (hr : w.response = some ⟨200, some j⟩) :
    (ingest cfg w).2 = Except.ok geojson_path ∧
    fileAfter w.fileBefore (ingest cfg w).1 = some (dumps j) ∧
    dumps j ≠ "" := by
  have h200 : raise_for_status_raises 200 = false := rfl
  refine ⟨?_, ?_, dumps_ne_empty j⟩
  · simp [ingest, hr, h200]
  · simp [ingest, hr, h200, fileAfter]

/-- Witness for C7 at the end-to-end scenario input. -/
theorem fetch_success_writes_exact_json_witness :
    (ingest specConfig specWorld).2 = Except.ok geojson_path ∧
    fileAfter specWorld.fileBefore (ingest specConfig specWorld).1 =
      some (dumps specBody) ∧
    dumps specBody ≠ "" :=
  fetch_success_writes_exact_json specConfig specWorld specBody rfl

/-- C9 counterexample: two successful fetches that write files of different
byte sizes return identical values, so the value returned by `ingest`
cannot carry the byte size written — it is only the file path. -/
theorem fetch_result_omits_byte_size :
    (dumps smallBody).length ≠ (dumps bigBody).length ∧
    fileAfter none (ingest specConfig smallBodyWorld).1 = some (dumps smallBody) ∧
    fileAfter none (ingest specConfig bigBodyWorld).1 = some (dumps bigBody) ∧
    (ingest specConfig smallBodyWorld).2 = (ingest specConfig bigBodyWorld).2 := by
  refine ⟨by decide, by decide, by decide, rfl⟩

/-- C9 (amended): on every successful fetch, `ingest` returns only the
fixed file path; no byte count is part of the return value. -/
theorem fetch_returns_only_path (cfg : Config) (w : World) (resp : HttpResponse)
    (j : JsonValue) (hr : w.response = some resp)
    (hst : raise_for_status_raises resp.status = false)
    (hb : resp.jsonBody = some j) :
    (ingest cfg w).2 = Except.ok geojson_path := by
  simp [ingest, hr, hst, hb]

/-- Witness for the amended C9 at the end-to-end scenario input. -/
theorem fetch_returns_only_path_witness :
    (ingest specConfig specWorld).2 = Except.ok geojson_path :=
  fetch_returns_only_path specConfig specWorld ⟨200, some specBody⟩ specBody
    rfl rfl rfl

/-- C1 counterexample: in the run where the portal has no item for the
configured identifier, item resolution raises and the failure is logged,
yet the process exit status is 0, not non-zero: the top-level handler
catches the exception and falls through to a normal exit. -/
theorem exit_zero_despite_item_failure :
    Event.logError ("Failed to retrieve portal item: " ++
        ("Portal item " ++ "abc123" ++ " not found"))
      ∈ (run specConfig itemMissingWorld).events ∧
    (run specConfig itemMissingWorld).exitCode = 0 :=
  ⟨by decide, rfl⟩

/-- C1 (amended): the process exit status is 1 exactly when the fetch
step fails (`ingest` calls `sys.exit(1)`, which the `except Exception`
handler cannot catch); when the fetch succeeds, every later failure —
including the unavoidable `NameError` — is caught by the top-level
handler, which logs it and prints a short message pointing at the log,
and the process exits 0. -/
theorem run_exit_status_behavior (cfg : Config) (w : World) :
    match (ingest cfg w).2 with
    | Except.error _ => (run cfg w).exitCode = 1
    | Except.ok _ =>
        (run cfg w).exitCode = 0 ∧
        Event.logException "Unhandled exception occurred" ∈ (run cfg w).events ∧
        ∃ m, Event.print (m ++ " (see log for details)") ∈ (run cfg w).events := by
  cases hresp : w.response with
  | none => simp [run, ingest, hresp]
  | some resp =>
    cases hst : raise_for_status_raises resp.status with
    | true => simp [run, ingest, hresp, hst]
    | false =>
      cases hj : resp.jsonBody with
      | none => simp [run, ingest, hresp, hst, hj]
      | some data =>
        rcases ha : w.auth cfg.portal_url cfg.portal_username w.secret with e | g
        · simp only [run, ingest, sign_in_to_gis, hresp, hst, hj, ha,
            exceptHandlerEvents]
          exact ⟨rfl, by simp, e, by simp⟩
        · rcases hc : w.contentGet cfg.portal_item_id with e | o
          · simp only [run, ingest, sign_in_to_gis, get_portal_item, hresp,
              hst, hj, ha, hc, exceptHandlerEvents]
            exact ⟨rfl, by simp, e, by simp⟩
          · rcases o with _ | item
            · simp only [run, ingest, sign_in_to_gis, get_portal_item, hresp,
                hst, hj, ha, hc, exceptHandlerEvents]
              exact ⟨rfl, by simp, "Portal item " ++ cfg.portal_item_id ++
                " not found", by simp⟩
            · simp only [run, ingest, sign_in_to_gis, get_portal_item, hresp,
                hst, hj, ha, hc, exceptHandlerEvents]
              exact ⟨rfl, by simp, nameErrorMsg, by simp⟩

/-- C2 (code defect): at the exact end-to-end happy-path input of the spec
— HTTP 200 with the FeatureCollection document, secret "pw1" stored,
portal authenticating, item "abc123" resolving, overwrite available — the
run does write the fetched JSON to the local file and does exit 0, but the
overwrite operation is never invoked and no elapsed-duration entry is
logged: line 136 calls the undefined name `replace_feature_layer`, raising
`NameError`, which the top-level handler logs and prints. -/
theorem happy_path_raises_name_error :
    (run specConfig specWorld).exitCode = 0 ∧
    fileAfter specWorld.fileBefore (run specConfig specWorld).events =
      some (dumps specBody) ∧
    (run specConfig specWorld).events.all (fun e => !isOverwriteCall e) = true ∧
    (run specConfig specWorld).events.all (fun e => !isLogInfo e) = true ∧
    Event.logException "Unhandled exception occurred"
      ∈ (run specConfig specWorld).events ∧
    Event.print (nameErrorMsg ++ " (see log for details)")
      ∈ (run specConfig specWorld).events := by
  refine ⟨rfl, by decide, by decide, by decide, by decide, by decide⟩

/-- C3 counterexample: in a run where the secret store has no entry for
the portal account, no `CredentialNotFoundError` stops the run; the
orchestrator proceeds to the portal and attempts the authentication
handshake with a `None` password. -/
theorem auth_attempted_without_secret :
    noSecretWorld.secret = none ∧
    Event.authAttempt "https://org.example.com" "svc" none
      ∈ (run specConfig noSecretWorld).events :=
  ⟨rfl, by decide⟩

/-- C3 (amended): whenever the secret-store lookup returns no entry and
the fetch succeeds, the run does not fail at the credential step; it
attempts the portal authentication handshake, passing `None` as the
password. -/
theorem missing_secret_passes_none_to_auth (cfg : Config) (w : World)
    (hs : w.secret = none) (hi : ∃ p, (ingest cfg w).2 = Except.ok p) :
    Event.authAttempt cfg.portal_url cfg.portal_username none
      ∈ (run cfg w).events := by
  obtain ⟨p, hp⟩ := hi
  cases hresp : w.response with
  | none => simp [ingest, hresp] at hp
  | some resp =>
    cases hst : raise_for_status_raises resp.status with
    | true => simp [ingest, hresp, hst] at hp
    | false =>
      cases hj : resp.jsonBody with
      | none => simp [ingest, hresp, hst, hj] at hp
      | some data =>
        rcases ha : w.auth cfg.portal_url cfg.portal_username none with e | g
        · simp [run, ingest, sign_in_to_gis, hresp, hst, hj, hs, ha,
            exceptHandlerEvents]
        · rcases hc : w.contentGet cfg.portal_item_id with e | (_ | item) <;>
            simp [run, ingest, sign_in_to_gis, get_portal_item, hresp, hst,
              hj, hs, ha, hc, exceptHandlerEvents]

/-- Witness for the amended C3 at the no-secret input. -/
theorem missing_secret_passes_none_to_auth_witness :
    Event.authAttempt specConfig.portal_url specConfig.portal_username none
      ∈ (run specConfig noSecretWorld).events :=
  missing_secret_passes_none_to_auth specConfig noSecretWorld rfl
    ⟨geojson_path, rfl⟩

/-- C4 counterexample: a fetch whose response body is not parseable as
JSON but whose status is 404 does not fail with the JSON-decode error
(`MalformedResponseError`): `raise_for_status` fires first and the run
fails with the HTTP-status error instead. -/
theorem unparseable_body_with_http_error_status :
    ingestErrorKind (ingest specConfig badStatus404World).2 =
      some (RequestsError.httpError 404) ∧
    ingestErrorKind (ingest specConfig badStatus404World).2 ≠
      some RequestsError.jsonDecode :=
  ⟨rfl, by decide⟩

/-- C4 (amended): for every fetch whose response passes the HTTP status
check (status outside 400-599) and whose body is not parseable as JSON,
the run fails with the JSON-decode error (`MalformedResponseError`), the
process exits 1, and the local dataset file is not modified. -/
theorem unparseable_body_fails_json_decode (cfg : Config) (w : World)
    (resp : HttpResponse) (hr : w.response = some resp)
    (hst : raise_for_status_raises resp.status = false)
    (hb : resp.jsonBody = none) :
    (ingest cfg w).2 = Except.error RequestsError.jsonDecode ∧
    (run cfg w).exitCode = 1 ∧
    fileAfter w.fileBefore (run cfg w).events = w.fileBefore := by
  refine ⟨?_, ?_, ?_⟩ <;> simp [ingest, run, hr, hst, hb, fileAfter]

/-- Witness for the amended C4: HTTP 200 with an unparseable body. -/
theorem unparseable_body_fails_json_decode_witness :
    (ingest specConfig unparseableWorld).2 =
      Except.error RequestsError.jsonDecode ∧
    (run specConfig unparseableWorld).exitCode = 1 ∧
    fileAfter unparseableWorld.fileBefore
      (run specConfig unparseableWorld).events = unparseableWorld.fileBefore :=
  unparseable_body_fails_json_decode specConfig unparseableWorld
    ⟨200, none⟩ rfl rfl rfl

/-- C5 counterexample: a response with the non-2xx status 300 and a valid
JSON body does not make the fetch fail: `raise_for_status` only raises for
4xx/5xx, so the run proceeds, attempts portal authentication, and exits 0.
-/
theorem status_300_fetch_succeeds :
    (ingest specConfig status300World).2 = Except.ok geojson_path ∧
    (run specConfig status300World).exitCode = 0 ∧
    Event.authAttempt "https://org.example.com" "svc" (some "pw1")
      ∈ (run specConfig status300World).events :=
  ⟨rfl, rfl, by decide⟩

/-- C5 (amended): for every fetch whose HTTP response status is in
400-599, the fetch fails with the HTTP-status error
(`RemoteFetchError` carrying the status), the process exits 1, and no
portal authentication handshake is attempted in that run. -/
theorem error_status_fetch_fails (cfg : Config) (w : World)
    (resp : HttpResponse) (hr : w.response = some resp)
    (h4 : 400 ≤ resp.status) (h6 : resp.status < 600) :
    (ingest cfg w).2 = Except.error (RequestsError.httpError resp.status) ∧
    (run cfg w).exitCode = 1 ∧
    (run cfg w).events.all (fun e => !isAuthAttempt e) = true := by
  have hst : raise_for_status_raises resp.status = true := by
    simp only [raise_for_status_raises, Bool.and_eq_true, decide_eq_true_eq]
    omega
  refine ⟨?_, ?_, ?_⟩ <;> simp [ingest, run, hr, hst, isAuthAttempt]

/-- Witness for the amended C5 at an HTTP 404 response. -/
theorem error_status_fetch_fails_witness :
    (ingest specConfig badStatus404World).2 =
      Except.error (RequestsError.httpError 404) ∧
    (run specConfig badStatus404World).exitCode = 1 ∧
    (run specConfig badStatus404World).events.all
      (fun e => !isAuthAttempt e) = true :=
  error_status_fetch_fails specConfig badStatus404World ⟨404, none⟩
    rfl (by decide) (by decide)

/-- C6: whenever the portal returns no item for the configured identifier,
item resolution fails with the not-found exception (`ItemNotFoundError`),
the failure is logged, and no overwrite call is attempted anywhere in the
run. -/
theorem item_not_found_fatal_no_overwrite (cfg : Config) (w : World)
    (hc : w.contentGet cfg.portal_item_id = Except.ok none) :
    (get_portal_item w.contentGet cfg.portal_item_id).2 =
      Except.error ("Portal item " ++ cfg.portal_item_id ++ " not found") ∧
    Event.logError ("Failed to retrieve portal item: " ++
        ("Portal item " ++ cfg.portal_item_id ++ " not found"))
      ∈ (get_portal_item w.contentGet cfg.portal_item_id).1 ∧
    (run cfg w).events.all (fun e => !isOverwriteCall e) = true :=
  ⟨by simp [get_portal_item, hc], by simp [get_portal_item, hc],
    run_no_overwrite_event cfg w⟩

/-- Witness for C6 at the missing-item input. -/
theorem item_not_found_fatal_no_overwrite_witness :
    (get_portal_item itemMissingWorld.contentGet specConfig.portal_item_id).2 =
      Except.error ("Portal item " ++ specConfig.portal_item_id ++
        " not found") ∧
    Event.logError ("Failed to retrieve portal item: " ++
        ("Portal item " ++ specConfig.portal_item_id ++ " not found"))
      ∈ (get_portal_item itemMissingWorld.contentGet
          specConfig.portal_item_id).1 ∧
    (run specConfig itemMissingWorld).events.all
      (fun e => !isOverwriteCall e) = true :=
  item_not_found_fatal_no_overwrite specConfig itemMissingWorld rfl

/-- C8: the logged, printed and written output of a run up to the point
where the password is used (the authentication handshake) is independent
of the resolved secret: two runs differing only in the secret produce the
same pre-authentication trace, so the secret is never written to the log,
to stdout, or to a file before its sole use. -/
theorem output_independent_of_secret (cfg : Config) (w : World)
    (s1 s2 : Option String) :
    preAuthEvents
      (run cfg ⟨w.response, s1, w.auth, w.contentGet, w.overwrite, w.fileBefore⟩) =
    preAuthEvents
      (run cfg ⟨w.response, s2, w.auth, w.contentGet, w.overwrite, w.fileBefore⟩) := by
  cases hresp : w.response with
  | none => simp [preAuthEvents, run, ingest, hresp]
  | some resp =>
    cases hst : raise_for_status_raises resp.status with
    | true => simp [preAuthEvents, run, ingest, hresp, hst]
    | false =>
      cases hj : resp.jsonBody with
      | none => simp [preAuthEvents, run, ingest, hresp, hst, hj]
      | some data =>
        rcases ha1 : w.auth cfg.portal_url cfg.portal_username s1 with e1 | g1 <;>
        rcases ha2 : w.auth cfg.portal_url cfg.portal_username s2 with e2 | g2 <;>
        rcases hc : w.contentGet cfg.portal_item_id with e | (_ | item) <;>
        simp [preAuthEvents, run, ingest, sign_in_to_gis, get_portal_item,
          hresp, hst, hj, ha1, ha2, hc, exceptHandlerEvents, isAuthAttempt,
          List.takeWhile]
